import Mathlib

/-!
Shallow embedding of the `line_gateway` relay (Python, FastAPI) and proofs
about its routing, forwarding and reply-delegation behaviour.

Source files embedded:
  * `src/line_gateway/config.py`    — `Settings`, `ReplyMode`, keyword lists
  * `src/line_gateway/router.py`    — `RouteTarget`, `RouteResult`, `MessageRouter.route`
  * `src/line_gateway/forwarder.py` — `ForwardResult`, `WebhookForwarder`
  * `src/line_gateway/main.py`      — `webhook` endpoint, `process_event`

Network I/O, JSON parsing of responses, storage and the HMAC signature
primitive are modelled as explicit environment parameters (an outbound call's
outcome is a `NetResult`; the signature primitive is an abstract boolean
function with the same call signature as `verify_signature`), so every
function here is a total, executable Lean definition mirroring the Python
control flow.
-/

namespace LineGateway

/-- `config.py` `ReplyMode`: process-wide reply-delegation mode. -/
inductive ReplyMode where
  | unified
  | delegate_old
  | delegate_new
deriving DecidableEq, Repr

/-- `router.py` `RouteTarget`. -/
inductive RouteTarget where
  | old_system
  | new_system
  | both
deriving DecidableEq, Repr

/-- `router.py` `RouteResult` dataclass. -/
structure RouteResult where
  target : RouteTarget
  reason : String
  is_high_value : Bool := false
  matched_keyword : Option String := none
deriving DecidableEq, Repr

/-- The fields of `config.py` `Settings` consumed by the router, forwarder and
orchestrator, with the source's defaults. -/
structure Settings where
  line_channel_access_token : String := ""
  line_channel_secret : String := ""
  old_system_webhook_url : String := ""
  new_system_webhook_url : String := ""
  reply_mode : ReplyMode := .unified
  old_system_keywords : String := "開發票,地址,預約,轉帳,繳費"
  high_value_keywords : String := "設立公司,開公司,創業"
  notify_webhook_url : String := ""
deriving DecidableEq, Repr

/-- Python `str.split(",")` over a character list: split at every comma,
keeping empty pieces. -/
def splitCommaAux (cur : List Char) : List Char → List (List Char)
  | [] => [cur.reverse]
  | c :: cs =>
    if c == ',' then cur.reverse :: splitCommaAux [] cs
    else splitCommaAux (c :: cur) cs

/-- Python `str.strip()`: drop leading and trailing whitespace. -/
def trimChars (l : List Char) : List Char :=
  ((l.dropWhile Char.isWhitespace).reverse.dropWhile Char.isWhitespace).reverse

/-- The keyword-list derivation of `config.py`: comma-split, strip each piece,
drop empties, preserving order (`[k.strip() for k in s.split(",") if k.strip()]`). -/
def keywordsList (s : String) : List String :=
  if s = "" then []
  else ((splitCommaAux [] s.data).map (fun cs => String.mk (trimChars cs))).filter
    (fun k => !(k == ""))

/-- `Settings.old_keywords_list` property. -/
def Settings.old_keywords_list (s : Settings) : List String :=
  keywordsList s.old_system_keywords

/-- `Settings.high_value_keywords_list` property. -/
def Settings.high_value_keywords_list (s : Settings) : List String :=
  keywordsList s.high_value_keywords

/-- Does `kw` occur as a contiguous run inside `t` (lists of characters)? -/
def occursInChars (kw : List Char) : List Char → Bool
  | [] => kw.isEmpty
  | c :: ts => kw.isPrefixOf (c :: ts) || occursInChars kw ts

/-- Python's `kw in text` substring test on strings (case-sensitive, over
unicode code points). -/
def occursIn (kw text : String) : Bool :=
  occursInChars kw.data text.data

/-- The body of the router's `for keyword in ...: if keyword in message_text`
loops: first keyword of the list, in order, occurring in `t`. -/
def findMatch (t : String) : List String → Option String
  | [] => none
  | k :: ks => if occursIn k t then some k else findMatch t ks

/-- `RouteResult` returned for non-text messages (first branch of `route`). -/
def nonTextResult (message_type : String) : RouteResult :=
  { target := .new_system
    reason := s!"非文字訊息 (type={message_type})，由新系統處理" }

/-- `router.py` `MessageRouter.route`: non-text → new system; else first
old-system keyword match → old system; else first high-value keyword match →
new system flagged high-value; else new system by default. -/
def MessageRouter.route (cfg : Settings) (message_text : Option String)
    (message_type : String) : RouteResult :=
  match message_text with
  | none => nonTextResult message_type
  | some t =>
    if message_type ≠ "text" then nonTextResult message_type
    else
      match findMatch t cfg.old_keywords_list with
      | some k =>
        { target := .old_system
          reason := s!"包含舊系統關鍵字: {k}"
          matched_keyword := some k }
      | none =>
        match findMatch t cfg.high_value_keywords_list with
        | some k =>
          { target := .new_system
            reason := s!"包含高價值關鍵字: {k}"
            is_high_value := true
            matched_keyword := some k }
        | none =>
          { target := .new_system
            reason := "一般訊息，由新系統 (AI Agent) 處理" }

/-! ## Forwarder (`forwarder.py`) -/

/-- The body a backend's HTTP response parses to: `response.json()` when it is
a JSON object (modelled as string-valued entries), otherwise `response.text`. -/
inductive RespBody where
  | dict (entries : List (String × String))
  | text (s : String)
deriving DecidableEq, Repr

/-- Environment outcome of one outbound HTTP POST: a status and parsed body,
an `httpx.TimeoutException`, or an `httpx.RequestError` with its message. -/
inductive NetResult where
  | ok (status : Nat) (body : RespBody)
  | timeout
  | requestError (msg : String)
deriving DecidableEq, Repr

/-- `forwarder.py` `ForwardResult` dataclass. -/
structure ForwardResult where
  success : Bool
  target : String
  status_code : Option Nat := none
  response_body : Option RespBody := none
  error : Option String := none
deriving DecidableEq, Repr

/-- One outbound request as actually sent by `_forward`. -/
structure SentRequest where
  url : String
  body : List Nat
  headers : List (String × String)
deriving DecidableEq, Repr

/-- Python dict `.get(key)` on the modelled JSON object. -/
def dictGet (entries : List (String × String)) (key : String) : Option String :=
  match entries.find? (fun kv => kv.1 == key) with
  | some kv => some kv.2
  | none => none

/-- Hop-specific headers `_filter_headers` refuses to relay. -/
def skipHeaders : List String :=
  ["host", "content-length", "transfer-encoding", "connection"]

/-- Python `str.lower()` on a header name, character by character. -/
def lowerStr (s : String) : String :=
  String.mk (s.data.map Char.toLower)

/-- `WebhookForwarder._filter_headers`: drop hop-specific headers,
matching keys case-insensitively; keep everything else as-is. -/
def filter_headers (headers : List (String × String)) : List (String × String) :=
  headers.filter (fun kv => !(skipHeaders.contains (lowerStr kv.1)))

/-- The `ForwardResult` that `WebhookForwarder._forward` builds from the
response or exception of its `client.post` call: 2xx means success, timeout
and transport errors are converted into failure results. -/
def forwardResultOf (net : NetResult) (target : String) : ForwardResult :=
  match net with
  | .ok status body =>
    { success := decide (200 ≤ status ∧ status < 300)
      target := target
      status_code := some status
      response_body := some body }
  | .timeout =>
    { success := false, target := target, error := some "請求超時" }
  | .requestError msg =>
    { success := false, target := target, error := some msg }

/-- `WebhookForwarder._forward`: filters headers, posts the raw body to `url`,
and returns the outcome together with the request that went out. -/
def forwardCall (net : NetResult) (url : String) (body : List Nat)
    (headers : List (String × String)) (target : String) :
    ForwardResult × SentRequest :=
  (forwardResultOf net target, ⟨url, body, filter_headers headers⟩)

/-- `WebhookForwarder.forward_to_old_system`. The second component is the
request actually sent (`none` when no network call is attempted). The
`include_reply_token` parameter is carried exactly as in the source, which
never reads it. -/
def forward_to_old_system (cfg : Settings) (net : NetResult) (body : List Nat)
    (headers : List (String × String)) ( include_reply_token : Bool) :
    ForwardResult × Option SentRequest :=
  if cfg.old_system_webhook_url = "" then
    ({ success := false, target := "old_system",
       error := some "未設定 OLD_SYSTEM_WEBHOOK_URL" }, none)
  else
    let r := forwardCall net cfg.old_system_webhook_url body headers "old_system"
    (r.1, some r.2)

/-- `WebhookForwarder.forward_to_new_system`. -/
def forward_to_new_system (cfg : Settings) (net : NetResult) (body : List Nat)
    (headers : List (String × String)) : ForwardResult × Option SentRequest :=
  if cfg.new_system_webhook_url = "" then
    ({ success := false, target := "new_system",
       error := some "未設定 NEW_SYSTEM_WEBHOOK_URL" }, none)
  else
    let r := forwardCall net cfg.new_system_webhook_url body headers "new_system"
    (r.1, some r.2)

/-- Per-event environment: the outcome each backend would give if called,
and whether the storage write raises. -/
structure EventEnv where
  netOld : NetResult := .timeout
  netNew : NetResult := .timeout
  storageFails : Bool := false
deriving Repr

/-- `WebhookForwarder.forward_by_route`: dispatch on the routing target;
under `both`, the old call happens first, the new call second, each
unconditionally. Returns the outcome list and the requests sent. -/
def forward_by_route (cfg : Settings) (env : EventEnv) (route_result : RouteResult)
    (body : List Nat) (headers : List (String × String)) :
    List ForwardResult × List SentRequest :=
  match route_result.target with
  | .old_system =>
    let include_reply := cfg.reply_mode == ReplyMode.delegate_old
    let r := forward_to_old_system cfg env.netOld body headers include_reply
    ([r.1], r.2.toList)
  | .new_system =>
    let r := forward_to_new_system cfg env.netNew body headers
    ([r.1], r.2.toList)
  | .both =>
    let ro := forward_to_old_system cfg env.netOld body headers false
    let rn := forward_to_new_system cfg env.netNew body headers
    ([ro.1, rn.1], ro.2.toList ++ rn.2.toList)

/-! ## Orchestrator (`main.py`) -/

/-- The `message` sub-dict of a LINE event; absent keys are `none`. -/
structure LineMessage where
  type : Option String := none
  text : Option String := none
deriving DecidableEq, Repr

/-- The `source` sub-dict of a LINE event. -/
structure LineSource where
  userId : Option String := none
deriving DecidableEq, Repr

/-- One decoded LINE webhook event, as `process_event` consumes it. -/
structure LineEvent where
  type : Option String := none
  replyToken : Option String := none
  source : Option LineSource := none
  message : Option LineMessage := none
deriving DecidableEq, Repr

/-- Python truthiness of an optional string (`None` and `""` are falsy). -/
def truthy : Option String → Bool
  | some s => !(s == "")
  | none => false

/-- The reply loop of `process_event`'s Unified branch: walk outcomes in
order; a successful outcome with a dict body whose `reply_text` is truthy,
when the reply token is truthy, issues that one reply and breaks. Returns the
list of `(token, text)` reply calls made. -/
def unifiedReplies (reply_token : Option String) :
    List ForwardResult → List (String × String)
  | [] => []
  | r :: rs =>
    match r.success, r.response_body with
    | true, some (RespBody.dict entries) =>
      if truthy (dictGet entries "reply_text") && truthy reply_token then
        [(reply_token.getD "", (dictGet entries "reply_text").getD "")]
      else unifiedReplies reply_token rs
    | _, _ => unifiedReplies reply_token rs

/-- `message_type = message.get("type", "unknown")` of `process_event`. -/
def eventMessageType (event : LineEvent) : String :=
  ((event.message.getD {}).type).getD "unknown"

/-- `message_text = message.get("text") if message_type == "text" else None`. -/
def eventMessageText (event : LineEvent) : Option String :=
  if eventMessageType event = "text" then (event.message.getD {}).text else none

/-- The routing decision `process_event` derives for an event. -/
def eventRoute (cfg : Settings) (event : LineEvent) : RouteResult :=
  MessageRouter.route cfg (eventMessageText event) (eventMessageType event)

/-- Observable record of one `process_event` run. -/
structure EventTrace where
  user_id : String
  route_result : RouteResult
  storage_ok : Bool
  notifyAttempted : Bool
  sentRequests : List SentRequest
  replies : List (String × String)
deriving DecidableEq, Repr

/-- `main.py` `process_event`: route, best-effort storage, high-value
notification, then the mode-dependent forwarding/reply step. -/
def process_event (cfg : Settings) (env : EventEnv) (event : LineEvent)
    (raw_body : List Nat) (headers : List (String × String)) : EventTrace :=
  let reply_token := event.replyToken
  let user_id := ((event.source.getD {}).userId).getD "unknown"
  let route_result := eventRoute cfg event
  let storage_ok := !env.storageFails
  let notifyAttempted :=
    route_result.is_high_value && truthy route_result.matched_keyword
  match cfg.reply_mode with
  | .unified =>
    let fwd := forward_by_route cfg env route_result raw_body headers
    { user_id := user_id
      route_result := route_result
      storage_ok := storage_ok
      notifyAttempted := notifyAttempted
      sentRequests := fwd.2
      replies := unifiedReplies reply_token fwd.1 }
  | .delegate_old =>
    if route_result.target = RouteTarget.old_system then
      let r := forward_to_old_system cfg env.netOld raw_body headers true
      { user_id := user_id, route_result := route_result, storage_ok := storage_ok
        notifyAttempted := notifyAttempted, sentRequests := r.2.toList, replies := [] }
    else
      let r := forward_to_new_system cfg env.netNew raw_body headers
      { user_id := user_id, route_result := route_result, storage_ok := storage_ok
        notifyAttempted := notifyAttempted, sentRequests := r.2.toList, replies := [] }
  | .delegate_new =>
    if route_result.target = RouteTarget.new_system then
      let r := forward_to_new_system cfg env.netNew raw_body headers
      { user_id := user_id, route_result := route_result, storage_ok := storage_ok
        notifyAttempted := notifyAttempted, sentRequests := r.2.toList, replies := [] }
    else
      let r := forward_to_old_system cfg env.netOld raw_body headers false
      { user_id := user_id, route_result := route_result, storage_ok := storage_ok
        notifyAttempted := notifyAttempted, sentRequests := r.2.toList, replies := [] }

/-- The decoded JSON payload of one webhook delivery (`data.get("events", [])`). -/
structure WebhookPayload where
  events : List LineEvent := []
deriving DecidableEq, Repr

/-- Observable result of the `/webhook` endpoint. -/
structure WebhookResponse where
  status : Nat
  sigChecked : Bool
  traces : List EventTrace
deriving Repr

/-- The guard of `main.py:106`: signature verification runs only when a
channel secret is configured and the `X-Line-Signature` header is truthy. -/
def signatureChecked (cfg : Settings) (x_line_signature : Option String) : Bool :=
  !(cfg.line_channel_secret == "") && truthy x_line_signature

/-- Events of one delivery processed in array order, each with its own
environment (`for event in events: await process_event(...)`). -/
def processEvents (cfg : Settings) (body : List Nat)
    (headers : List (String × String)) (envOf : Nat → EventEnv)
    (events : List LineEvent) : List EventTrace :=
  events.enum.map (fun ie => process_event cfg (envOf ie.1) ie.2 body headers)

/-- `main.py` `/webhook` endpoint. `verify` is the HMAC-SHA256 signature
primitive (`verify_signature`) as an abstract boolean function; `parsed` is
the outcome of `json.loads` on the raw body (`none` = `JSONDecodeError`).
Returns 403 on signature failure, 400 on bad JSON, otherwise processes every
event and returns 200. -/
def webhook (cfg : Settings) (verify : List Nat → String → String → Bool)
    (body : List Nat) (headers : List (String × String))
    (x_line_signature : Option String) (parsed : Option WebhookPayload)
    (envOf : Nat → EventEnv) : WebhookResponse :=
  let checked := signatureChecked cfg x_line_signature
  if checked && !(verify body (x_line_signature.getD "") cfg.line_channel_secret) then
    { status := 403, sigChecked := checked, traces := [] }
  else
    match parsed with
    | none => { status := 400, sigChecked := checked, traces := [] }
    | some p =>
      { status := 200, sigChecked := checked
        traces := processEvents cfg body headers envOf p.events }

/-! ## Specification-side reconciler description (for the refinement claims) -/

/-- Spec wording: an outcome qualifies to drive the Unified reply when it is
successful, has a structured (dict) body, and that body carries a non-empty
`reply_text`. -/
def qualifies (r : ForwardResult) : Bool :=
  r.success &&
    (match r.response_body with
     | some (RespBody.dict entries) => truthy (dictGet entries "reply_text")
     | _ => false)

/-- Spec wording: the reply text of the first qualifying outcome in
forwarding order, if any. -/
def firstReplyText (rs : List ForwardResult) : Option String :=
  match rs.find? qualifies with
  | some r =>
    match r.response_body with
    | some (RespBody.dict entries) => dictGet entries "reply_text"
    | _ => none
  | none => none

/-! ## Theorems -/

theorem findMatch_eq_none {t : String} {l : List String}
    (h : ∀ k ∈ l, occursIn k t = false) : findMatch t l = none := by
  induction l with
  | nil => rfl
  | cons k ks ih =>
    simp only [findMatch, h k (List.mem_cons_self k ks)]
    exact ih fun k' hk' => h k' (List.mem_cons_of_mem k hk')

theorem findMatch_first {t k : String} {pre suf : List String}
    (hpre : ∀ k' ∈ pre, occursIn k' t = false) (hk : occursIn k t = true) :
    findMatch t (pre ++ k :: suf) = some k := by
  induction pre with
  | nil => simp [findMatch, hk]
  | cons p ps ih =>
    simp only [List.cons_append, findMatch, hpre p (List.mem_cons_self p ps)]
    exact ih fun k' hk' => hpre k' (List.mem_cons_of_mem p hk')

/-- C1: the classifier returns `new_system` for non-text or absent text;
otherwise the first old-system keyword (in configured order) occurring in the
text wins with target `old_system`; otherwise the first matching high-value
keyword wins with target `new_system` and the high-value flag; otherwise
`new_system` with no keyword. Old-system keywords outrank high-value ones,
matching is first-match in list order, and `both` is never produced. -/
theorem route_classifier_correct (cfg : Settings) (message_text : Option String)
    (message_type : String) :
    (MessageRouter.route cfg message_text message_type).target ≠ RouteTarget.both
  ∧ ((message_type ≠ "text" ∨ message_text = none) →
      MessageRouter.route cfg message_text message_type = nonTextResult message_type)
  ∧ (∀ t pre suf k, message_type = "text" → message_text = some t →
      cfg.old_keywords_list = pre ++ k :: suf → occursIn k t = true →
      (∀ k' ∈ pre, occursIn k' t = false) →
      MessageRouter.route cfg message_text message_type =
        { target := RouteTarget.old_system, reason := s!"包含舊系統關鍵字: {k}",
          matched_keyword := some k })
  ∧ (∀ t pre suf k, message_type = "text" → message_text = some t →
      (∀ k' ∈ cfg.old_keywords_list, occursIn k' t = false) →
      cfg.high_value_keywords_list = pre ++ k :: suf → occursIn k t = true →
      (∀ k' ∈ pre, occursIn k' t = false) →
      MessageRouter.route cfg message_text message_type =
        { target := RouteTarget.new_system, reason := s!"包含高價值關鍵字: {k}",
          is_high_value := true, matched_keyword := some k })
  ∧ (∀ t, message_type = "text" → message_text = some t →
      (∀ k ∈ cfg.old_keywords_list, occursIn k t = false) →
      (∀ k ∈ cfg.high_value_keywords_list, occursIn k t = false) →
      MessageRouter.route cfg message_text message_type =
        { target := RouteTarget.new_system,
          reason := "一般訊息，由新系統 (AI Agent) 處理" }) := by
  refine ⟨?_, ?_, ?_, ?_, ?_⟩
  · cases message_text with
    | none => simp [MessageRouter.route, nonTextResult]
    | some t =>
      simp only [MessageRouter.route]
      split
      · simp [nonTextResult]
      · cases h1 : findMatch t cfg.old_keywords_list with
        | some k => simp [h1]
        | none =>
          cases h2 : findMatch t cfg.high_value_keywords_list with
          | some k => simp [h1, h2]
          | none => simp [h1, h2]
  · intro h
    cases message_text with
    | none => rfl
    | some t =>
      have hty : message_type ≠ "text" := by
        rcases h with h | h
        · exact h
        · cases h
      simp only [MessageRouter.route]
      rw [if_pos hty]
  · intro t pre suf k hty hmt hsplit hk hpre
    subst hmt
    subst hty
    simp only [MessageRouter.route]
    rw [if_neg (by simp), hsplit, findMatch_first hpre hk]
  · intro t pre suf k hty hmt hold hsplit hk hpre
    subst hmt
    subst hty
    simp only [MessageRouter.route]
    rw [if_neg (by simp), findMatch_eq_none hold, hsplit, findMatch_first hpre hk]
  · intro t hty hmt hold hhigh
    subst hmt
    subst hty
    simp only [MessageRouter.route]
    rw [if_neg (by simp), findMatch_eq_none hold, findMatch_eq_none hhigh]

/-- Witness for C1: the spec scenario — with the default configuration, text
`"請幫我開發票"` routes to the old system with matched keyword `"開發票"`. -/
theorem route_classifier_correct_witness :
    (MessageRouter.route {} (some "請幫我開發票") "text").target =
        RouteTarget.old_system ∧
      (MessageRouter.route {} (some "請幫我開發票") "text").matched_keyword =
        some "開發票" := by
  have h := (route_classifier_correct {} (some "請幫我開發票") "text").2.2.1
    "請幫我開發票" [] ["地址", "預約", "轉帳", "繳費"] "開發票" rfl rfl
    (by decide) (by decide) (by simp)
  rw [h]
  exact ⟨rfl, rfl⟩

theorem unifiedReplies_length_le (reply_token : Option String)
    (rs : List ForwardResult) : (unifiedReplies reply_token rs).length ≤ 1 := by
  induction rs with
  | nil => simp [unifiedReplies]
  | cons r rs ih =>
    rcases r with ⟨succ, target, sc, rb, err⟩
    cases succ with
    | false => exact ih
    | true =>
      match rb with
      | none => exact ih
      | some (RespBody.text s) => exact ih
      | some (RespBody.dict entries) =>
        simp only [unifiedReplies]
        split
        · simp
        · exact ih

theorem unifiedReplies_none (rs : List ForwardResult) :
    unifiedReplies none rs = [] := by
  induction rs with
  | nil => rfl
  | cons r rs ih =>
    rcases r with ⟨succ, target, sc, rb, err⟩
    cases succ with
    | false => exact ih
    | true =>
      match rb with
      | none => exact ih
      | some (RespBody.text s) => exact ih
      | some (RespBody.dict entries) =>
        simp only [unifiedReplies, truthy, Bool.and_false, if_neg]
        exact ih

theorem unifiedReplies_eq_firstReplyText {tok : String} (htok : tok ≠ "")
    (rs : List ForwardResult) :
    unifiedReplies (some tok) rs =
      match firstReplyText rs with
      | some txt => [(tok, txt)]
      | none => [] := by
  induction rs with
  | nil => rfl
  | cons r rs ih =>
    rcases r with ⟨succ, target, sc, rb, err⟩
    cases succ with
    | false => simpa [unifiedReplies, firstReplyText, qualifies, List.find?] using ih
    | true =>
      match rb with
      | none => simpa [unifiedReplies, firstReplyText, qualifies, List.find?] using ih
      | some (RespBody.text s) =>
        simpa [unifiedReplies, firstReplyText, qualifies, List.find?] using ih
      | some (RespBody.dict entries) =>
        cases hd : dictGet entries "reply_text" with
        | none =>
          simpa [unifiedReplies, firstReplyText, qualifies, List.find?, hd, truthy]
            using ih
        | some s =>
          by_cases hs : s = ""
          · subst hs
            simpa [unifiedReplies, firstReplyText, qualifies, List.find?, hd, truthy]
              using ih
          · have hs' : (s == "") = false := by simp [hs]
            have ht' : (tok == "") = false := by simp [htok]
            simp [unifiedReplies, firstReplyText, qualifies, List.find?, hd, truthy,
              hs', ht']

/-- C2: under mode Unified, at most one reply is issued per event, and when
the event carries a (truthy) reply token the reply issued is exactly the
reply text of the first forwarding outcome, in forwarding order, that is
successful with a structured body bearing a non-empty `reply_text`. -/
theorem unified_reply_reconciliation (cfg : Settings) (env : EventEnv)
    (event : LineEvent) (raw_body : List Nat) (headers : List (String × String))
    (hm : cfg.reply_mode = ReplyMode.unified) :
    ((process_event cfg env event raw_body headers).replies.length ≤ 1)
  ∧ (∀ tok, event.replyToken = some tok → tok ≠ "" →
      (process_event cfg env event raw_body headers).replies =
        match firstReplyText
            (forward_by_route cfg env (eventRoute cfg event) raw_body headers).1 with
        | some txt => [(tok, txt)]
        | none => []) := by
  constructor
  · simp only [process_event, hm]
    exact unifiedReplies_length_le _ _
  · intro tok htok hne
    simp only [process_event, hm, htok]
    exact unifiedReplies_eq_firstReplyText hne _

/-- Witness for C2: an ordinary text event routes to the new system; with a
reply token present and the new backend returning `reply_text = "B"`, exactly
`("tok", "B")` is issued. -/
theorem unified_reply_reconciliation_witness :
    (process_event
        { old_system_webhook_url := "http://old.example",
          new_system_webhook_url := "http://new.example",
          reply_mode := ReplyMode.unified }
        { netOld := NetResult.ok 200 (RespBody.dict [("reply_text", "A")]),
          netNew := NetResult.ok 200 (RespBody.dict [("reply_text", "B")]) }
        { replyToken := some "tok",
          message := some { type := some "text", text := some "hi" } }
        [] []).replies = [("tok", "B")] := by
  have h := (unified_reply_reconciliation
    { old_system_webhook_url := "http://old.example",
      new_system_webhook_url := "http://new.example",
      reply_mode := ReplyMode.unified }
    { netOld := NetResult.ok 200 (RespBody.dict [("reply_text", "A")]),
      netNew := NetResult.ok 200 (RespBody.dict [("reply_text", "B")]) }
    { replyToken := some "tok",
      message := some { type := some "text", text := some "hi" } }
    [] [] rfl).2 "tok" rfl (by decide)
  rw [h]
  decide

/-- C7: an event with no reply token never triggers a reply call, in every
delegation mode, for every routing decision and forwarding environment. -/
theorem no_token_no_reply (cfg : Settings) (env : EventEnv) (event : LineEvent)
    (raw_body : List Nat) (headers : List (String × String))
    (h : event.replyToken = none) :
    (process_event cfg env event raw_body headers).replies = [] := by
  cases hm : cfg.reply_mode with
  | unified =>
    simp only [process_event, hm, h]
    exact unifiedReplies_none _
  | delegate_old =>
    simp only [process_event, hm]
    split <;> rfl
  | delegate_new =>
    simp only [process_event, hm]
    split <;> rfl

/-- Witness for C7: a text event carrying reply text from the backend but no
reply token produces no reply. -/
theorem no_token_no_reply_witness :
    (process_event { new_system_webhook_url := "http://new.example" }
        { netNew := NetResult.ok 200 (RespBody.dict [("reply_text", "B")]) }
        { message := some { type := some "text", text := some "hi" } }
        [] []).replies = [] :=
  no_token_no_reply { new_system_webhook_url := "http://new.example" }
    { netNew := NetResult.ok 200 (RespBody.dict [("reply_text", "B")]) }
    { message := some { type := some "text", text := some "hi" } }
    [] [] rfl

theorem forward_by_route_env (cfg : Settings) (e1 e2 : EventEnv)
    (ho : e1.netOld = e2.netOld) (hn : e1.netNew = e2.netNew)
    (rr : RouteResult) (body : List Nat) (headers : List (String × String)) :
    forward_by_route cfg e1 rr body headers =
      forward_by_route cfg e2 rr body headers := by
  cases h : rr.target <;> simp [forward_by_route, h, ho, hn]

/-- C3: a delivery that passes the signature gate and parses as JSON always
gets HTTP 200, whatever the per-event environments do; and a storage-write
failure changes nothing observable about an event's processing except the
storage record itself — routing, notification and forwarding (and replies)
are identical. -/
theorem webhook_200_and_storage_isolation
    (cfg : Settings) (verify : List Nat → String → String → Bool)
    (body : List Nat) (headers : List (String × String))
    (x_line_signature : Option String) (parsed : Option WebhookPayload)
    (envOf : Nat → EventEnv) (p : WebhookPayload)
    (hsig : signatureChecked cfg x_line_signature = true →
      verify body (x_line_signature.getD "") cfg.line_channel_secret = true)
    (hparse : parsed = some p) :
    ((webhook cfg verify body headers x_line_signature parsed envOf).status = 200)
  ∧ (∀ (env : EventEnv) (event : LineEvent) (rb : List Nat)
        (hd : List (String × String)),
      process_event cfg { env with storageFails := true } event rb hd =
        { process_event cfg { env with storageFails := false } event rb hd with
          storage_ok := false }) := by
  constructor
  · have hcond : (signatureChecked cfg x_line_signature &&
        !(verify body (x_line_signature.getD "") cfg.line_channel_secret)) = false := by
      cases hc : signatureChecked cfg x_line_signature with
      | false => simp
      | true => simp [hsig hc]
    simp [webhook, hcond, hparse]
  · intro env event rb hd
    cases hm : cfg.reply_mode with
    | unified =>
      have hf : forward_by_route cfg { env with storageFails := true }
            (eventRoute cfg event) rb hd =
          forward_by_route cfg { env with storageFails := false }
            (eventRoute cfg event) rb hd :=
        forward_by_route_env _ _ _ rfl rfl _ _ _
      simp [process_event, hm, hf]
    | delegate_old =>
      simp only [process_event, hm]
      split <;> rfl
    | delegate_new =>
      simp only [process_event, hm]
      split <;> rfl

/-- Witness for C3: a concrete delivery with one event whose storage write
fails still gets HTTP 200, and the failing-storage trace differs from the
clean one only in `storage_ok`. -/
theorem webhook_200_and_storage_isolation_witness :
    ((webhook { new_system_webhook_url := "http://new.example" }
        (fun _ _ _ => true) [] [] none
        (some { events := [{ message := some { type := some "text",
                                               text := some "hi" } }] })
        (fun _ => { storageFails := true })).status = 200)
  ∧ (process_event { new_system_webhook_url := "http://new.example" }
        { storageFails := true }
        { message := some { type := some "text", text := some "hi" } } [] [] =
      { process_event { new_system_webhook_url := "http://new.example" }
          { storageFails := false }
          { message := some { type := some "text", text := some "hi" } } [] [] with
        storage_ok := false }) := by
  have h := webhook_200_and_storage_isolation
    { new_system_webhook_url := "http://new.example" } (fun _ _ _ => true) [] []
    none
    (some { events := [{ message := some { type := some "text",
                                           text := some "hi" } }] })
    (fun _ => { storageFails := true })
    { events := [{ message := some { type := some "text", text := some "hi" } }] }
    (fun _ => rfl) rfl
  exact ⟨h.1, h.2 {} { message := some { type := some "text", text := some "hi" } } [] []⟩

/-- C4 counterexample: with a channel secret configured but no
`X-Line-Signature` header on the request, the delivery is accepted with
HTTP 200 and the signature primitive is never consulted — even one that
rejects everything — refuting “whenever a channel secret is configured,
every request's signature is verified … rejected with HTTP 403”. -/
theorem signature_skipped_counterexample :
    ((webhook { line_channel_secret := "secret" } (fun _ _ _ => false)
        [] [] none (some {}) (fun _ => {})).status = 200)
  ∧ ((webhook { line_channel_secret := "secret" } (fun _ _ _ => false)
        [] [] none (some {}) (fun _ => {})).sigChecked = false)
  ∧ (({ line_channel_secret := "secret" } : Settings).line_channel_secret ≠ "") := by
  refine ⟨rfl, rfl, by decide⟩

/-- C4 (amended): signature verification runs exactly when a channel secret
is configured AND a non-empty `X-Line-Signature` header is present; whenever
it runs and fails, the request is rejected with HTTP 403 before any event
processing. -/
theorem signature_verification_amended
    (cfg : Settings) (verify : List Nat → String → String → Bool)
    (body : List Nat) (headers : List (String × String))
    (x_line_signature : Option String) (parsed : Option WebhookPayload)
    (envOf : Nat → EventEnv) :
    ((webhook cfg verify body headers x_line_signature parsed envOf).sigChecked = true ↔
      (cfg.line_channel_secret ≠ "" ∧ ∃ s, x_line_signature = some s ∧ s ≠ ""))
  ∧ (∀ s, x_line_signature = some s → s ≠ "" → cfg.line_channel_secret ≠ "" →
      verify body s cfg.line_channel_secret = false →
      (webhook cfg verify body headers x_line_signature parsed envOf).status = 403 ∧
        (webhook cfg verify body headers x_line_signature parsed envOf).traces = []) := by
  have hchecked : (webhook cfg verify body headers x_line_signature parsed envOf).sigChecked =
      signatureChecked cfg x_line_signature := by
    simp only [webhook]
    split
    · rfl
    · split <;> rfl
  constructor
  · rw [hchecked]
    cases x_line_signature with
    | none => simp [signatureChecked, truthy]
    | some s =>
      by_cases hs : s = "" <;>
        by_cases hsec : cfg.line_channel_secret = "" <;>
          simp [signatureChecked, truthy, hs, hsec]
  · intro s hsig hs hsec hv
    subst hsig
    have hchk : signatureChecked cfg (some s) = true := by
      simp [signatureChecked, truthy, hs, hsec]
    constructor <;> simp [webhook, hchk, hv]

/-- Witness for C4's amended statement: secret `"secret"`, header `"bad"`,
an always-rejecting primitive → 403 with no event processed, and the check
is recorded as performed. -/
theorem signature_verification_amended_witness :
    ((webhook { line_channel_secret := "secret" } (fun _ _ _ => false)
        [] [] (some "bad") (some {}) (fun _ => {})).status = 403)
  ∧ ((webhook { line_channel_secret := "secret" } (fun _ _ _ => false)
        [] [] (some "bad") (some {}) (fun _ => {})).traces = [])
  ∧ ((webhook { line_channel_secret := "secret" } (fun _ _ _ => false)
        [] [] (some "bad") (some {}) (fun _ => {})).sigChecked = true) := by
  have h := signature_verification_amended { line_channel_secret := "secret" }
    (fun _ _ _ => false) [] [] (some "bad") (some {}) (fun _ => {})
  have h2 := h.2 "bad" rfl (by decide) (by decide) rfl
  exact ⟨h2.1, h2.2, h.1.mpr ⟨by decide, "bad", rfl, by decide⟩⟩

/-- C5 (code bug evidence): in mode `delegate_old`, an event routed to
`new_system` whose new-backend response is a 200 dict bearing non-empty
`reply_text`, with a reply token present, is forwarded to the new backend but
no reply is ever issued — the Unified reconciliation the claim (and the
source's own comment 「轉發給新系統，由中繼站回覆」) calls for would have
issued one, as the final conjunct shows. -/
theorem delegate_old_new_target_never_replies :
    ((process_event
        { reply_mode := ReplyMode.delegate_old,
          new_system_webhook_url := "http://new.example/webhook" }
        { netNew := NetResult.ok 200 (RespBody.dict [("reply_text", "您好")]) }
        { replyToken := some "RTOKEN",
          message := some { type := some "text", text := some "hello" } }
        [] []).replies = [])
  ∧ ((process_event
        { reply_mode := ReplyMode.delegate_old,
          new_system_webhook_url := "http://new.example/webhook" }
        { netNew := NetResult.ok 200 (RespBody.dict [("reply_text", "您好")]) }
        { replyToken := some "RTOKEN",
          message := some { type := some "text", text := some "hello" } }
        [] []).sentRequests =
      [{ url := "http://new.example/webhook", body := [], headers := [] }])
  ∧ ((eventRoute
        { reply_mode := ReplyMode.delegate_old,
          new_system_webhook_url := "http://new.example/webhook" }
        { replyToken := some "RTOKEN",
          message := some { type := some "text", text := some "hello" } }).target =
      RouteTarget.new_system)
  ∧ (unifiedReplies (some "RTOKEN")
        [forwardResultOf (NetResult.ok 200 (RespBody.dict [("reply_text", "您好")]))
          "new_system"] = [("RTOKEN", "您好")]) := by
  refine ⟨by decide, by decide, by decide, by decide⟩

/-- C6 counterexample: under target `both`, the old leg answering 404 yields
a `success = false` outcome whose `error` field is `none` — the status code
and body are recorded, but no descriptive error accompanies a non-2xx leg,
refuting “a timeout, transport failure, or non-2xx status on one leg is
converted into a success=false outcome with a descriptive error”. -/
theorem non2xx_outcome_has_no_error_counterexample :
    ((forward_by_route
        { old_system_webhook_url := "http://old.example",
          new_system_webhook_url := "http://new.example" }
        { netOld := NetResult.ok 404 (RespBody.text "not found"),
          netNew := NetResult.ok 200 (RespBody.dict []) }
        { target := RouteTarget.both, reason := "r" } [] []).1.get? 0 =
      some { success := false, target := "old_system", status_code := some 404,
             response_body := some (RespBody.text "not found"), error := none })
  ∧ ((forwardResultOf (NetResult.ok 404 (RespBody.text "not found"))
        "old_system").success = false)
  ∧ ((forwardResultOf (NetResult.ok 404 (RespBody.text "not found"))
        "old_system").error = none) := by
  refine ⟨by decide, by decide, by decide⟩

/-- C6 (amended): under target `both`, exactly two outcomes are produced —
the old-system one first, the new-system one second, each equal to the
outcome of its own standalone call (so neither leg's failure can suppress the
other); a timeout or transport failure becomes a `success = false` outcome
with a descriptive error, and a non-2xx status becomes a `success = false`
outcome recording the status code and parsed body but carrying no error
description — never an exception propagated to the caller. -/
theorem forward_both_two_independent_outcomes (cfg : Settings) (env : EventEnv)
    (route_result : RouteResult) (body : List Nat)
    (headers : List (String × String))
    (h : route_result.target = RouteTarget.both) :
    ((forward_by_route cfg env route_result body headers).1.length = 2)
  ∧ ((forward_by_route cfg env route_result body headers).1.get? 0 =
      some (forward_to_old_system cfg env.netOld body headers false).1)
  ∧ ((forward_by_route cfg env route_result body headers).1.get? 1 =
      some (forward_to_new_system cfg env.netNew body headers).1)
  ∧ (∀ target, (forwardResultOf NetResult.timeout target).success = false ∧
      (forwardResultOf NetResult.timeout target).error = some "請求超時")
  ∧ (∀ msg target,
      (forwardResultOf (NetResult.requestError msg) target).success = false ∧
      (forwardResultOf (NetResult.requestError msg) target).error = some msg)
  ∧ (∀ status b target, ¬(200 ≤ status ∧ status < 300) →
      forwardResultOf (NetResult.ok status b) target =
        { success := false, target := target, status_code := some status,
          response_body := some b, error := none }) := by
  refine ⟨?_, ?_, ?_, ?_, ?_, ?_⟩
  · simp [forward_by_route, h]
  · simp [forward_by_route, h]
  · simp [forward_by_route, h]
  · intro target
    exact ⟨rfl, rfl⟩
  · intro msg target
    exact ⟨rfl, rfl⟩
  · intro status b target hst
    have hd : decide (200 ≤ status ∧ status < 300) = false := decide_eq_false hst
    simp [forwardResultOf, hd]

/-- Witness for C6: target `both` with the old leg timing out and the new leg
returning 500 still yields both outcomes, old first. -/
theorem forward_both_two_independent_outcomes_witness :
    ((forward_by_route
        { old_system_webhook_url := "http://old.example",
          new_system_webhook_url := "http://new.example" }
        { netOld := NetResult.timeout,
          netNew := NetResult.ok 500 (RespBody.text "boom") }
        { target := RouteTarget.both, reason := "r" } [] []).1.length = 2)
  ∧ ((forward_by_route
        { old_system_webhook_url := "http://old.example",
          new_system_webhook_url := "http://new.example" }
        { netOld := NetResult.timeout,
          netNew := NetResult.ok 500 (RespBody.text "boom") }
        { target := RouteTarget.both, reason := "r" } [] []).1.get? 0 =
      some (forward_to_old_system
        { old_system_webhook_url := "http://old.example",
          new_system_webhook_url := "http://new.example" }
        NetResult.timeout [] [] false).1) := by
  have h := forward_both_two_independent_outcomes
    { old_system_webhook_url := "http://old.example",
      new_system_webhook_url := "http://new.example" }
    { netOld := NetResult.timeout,
      netNew := NetResult.ok 500 (RespBody.text "boom") }
    { target := RouteTarget.both, reason := "r" } [] [] rfl
  exact ⟨h.1, h.2.1⟩

theorem forward_to_old_system_sent (cfg : Settings) (net : NetResult)
    (body : List Nat) (headers : List (String × String)) (flag : Bool) :
    ∀ req ∈ (forward_to_old_system cfg net body headers flag).2.toList,
      req.body = body ∧ req.headers = filter_headers headers := by
  intro req hreq
  unfold forward_to_old_system at hreq
  split at hreq
  · simp at hreq
  · simp [forwardCall] at hreq
    subst hreq
    exact ⟨rfl, rfl⟩

theorem forward_to_new_system_sent (cfg : Settings) (net : NetResult)
    (body : List Nat) (headers : List (String × String)) :
    ∀ req ∈ (forward_to_new_system cfg net body headers).2.toList,
      req.body = body ∧ req.headers = filter_headers headers := by
  intro req hreq
  unfold forward_to_new_system at hreq
  split at hreq
  · simp at hreq
  · simp [forwardCall] at hreq
    subst hreq
    exact ⟨rfl, rfl⟩

theorem forward_by_route_sent (cfg : Settings) (env : EventEnv)
    (rr : RouteResult) (body : List Nat) (headers : List (String × String)) :
    ∀ req ∈ (forward_by_route cfg env rr body headers).2,
      req.body = body ∧ req.headers = filter_headers headers := by
  intro req hreq
  cases h : rr.target with
  | old_system =>
    simp only [forward_by_route, h] at hreq
    exact forward_to_old_system_sent cfg env.netOld body headers _ req hreq
  | new_system =>
    simp only [forward_by_route, h] at hreq
    exact forward_to_new_system_sent cfg env.netNew body headers req hreq
  | both =>
    simp only [forward_by_route, h, List.mem_append] at hreq
    rcases hreq with hreq | hreq
    · exact forward_to_old_system_sent cfg env.netOld body headers _ req hreq
    · exact forward_to_new_system_sent cfg env.netNew body headers req hreq

theorem mem_filter_headers (headers : List (String × String)) (k v : String) :
    ((k, v) ∈ filter_headers headers) ↔
      ((k, v) ∈ headers ∧ skipHeaders.contains (lowerStr k) = false) := by
  simp [filter_headers, List.mem_filter]

/-- C8: every request the relay actually sends carries the inbound raw body
byte-for-byte, and its header set is exactly the inbound set minus the
hop-specific `host`, `content-length`, `transfer-encoding` and `connection`
headers (matched case-insensitively); every other header passes through
unchanged. -/
theorem relay_body_and_headers_exact (cfg : Settings) (env : EventEnv)
    (event : LineEvent) (raw_body : List Nat)
    (headers : List (String × String)) :
    ∀ req ∈ (process_event cfg env event raw_body headers).sentRequests,
      req.body = raw_body ∧
      ∀ k v : String, ((k, v) ∈ req.headers ↔
        ((k, v) ∈ headers ∧ skipHeaders.contains (lowerStr k) = false)) := by
  intro req hreq
  have hsent : req.body = raw_body ∧ req.headers = filter_headers headers := by
    cases hm : cfg.reply_mode with
    | unified =>
      simp only [process_event, hm] at hreq
      exact forward_by_route_sent cfg env _ raw_body headers req hreq
    | delegate_old =>
      simp only [process_event, hm] at hreq
      split at hreq
      · exact forward_to_old_system_sent cfg env.netOld raw_body headers _ req hreq
      · exact forward_to_new_system_sent cfg env.netNew raw_body headers req hreq
    | delegate_new =>
      simp only [process_event, hm] at hreq
      split at hreq
      · exact forward_to_new_system_sent cfg env.netNew raw_body headers req hreq
      · exact forward_to_old_system_sent cfg env.netOld raw_body headers _ req hreq
  refine ⟨hsent.1, ?_⟩
  intro k v
  rw [hsent.2]
  exact mem_filter_headers headers k v

/-- Witness for C8: a concrete non-text event forwarded to the new system
sends the original two-byte body, keeps `x-line-signature`, and drops `Host`. -/
theorem relay_body_and_headers_exact_witness :
    ((SentRequest.mk "http://new.example" [1, 2]
        [("x-line-signature", "sig")]).body = [1, 2])
  ∧ ((("Host", "api.example") ∈
        (SentRequest.mk "http://new.example" [1, 2]
          [("x-line-signature", "sig")]).headers) ↔
      ((("Host", "api.example") ∈
          [("Host", "api.example"), ("x-line-signature", "sig")]) ∧
        skipHeaders.contains (lowerStr "Host") = false)) := by
  have h := relay_body_and_headers_exact
    { new_system_webhook_url := "http://new.example" } {} {}
    [1, 2] [("Host", "api.example"), ("x-line-signature", "sig")]
    (SentRequest.mk "http://new.example" [1, 2] [("x-line-signature", "sig")])
    (by decide)
  exact ⟨h.1, h.2 "Host" "api.example"⟩

/-- C9: a forwarding call whose target URL is unconfigured (empty) returns an
immediate failed `ForwardResult` carrying the “not configured” error for that
target, and no request is sent. -/
theorem unconfigured_url_immediate_failure (cfg : Settings) (net : NetResult)
    (body : List Nat) (headers : List (String × String)) (flag : Bool) :
    (cfg.old_system_webhook_url = "" →
      forward_to_old_system cfg net body headers flag =
        ({ success := false, target := "old_system",
           error := some "未設定 OLD_SYSTEM_WEBHOOK_URL" }, none))
  ∧ (cfg.new_system_webhook_url = "" →
      forward_to_new_system cfg net body headers =
        ({ success := false, target := "new_system",
           error := some "未設定 NEW_SYSTEM_WEBHOOK_URL" }, none)) := by
  constructor
  · intro h
    simp [forward_to_old_system, h]
  · intro h
    simp [forward_to_new_system, h]

/-- Witness for C9: with the default (empty) configuration, both forwarding
calls fail immediately without sending anything. -/
theorem unconfigured_url_immediate_failure_witness :
    (forward_to_old_system {} NetResult.timeout [] [] false =
      ({ success := false, target := "old_system",
         error := some "未設定 OLD_SYSTEM_WEBHOOK_URL" }, none))
  ∧ (forward_to_new_system {} NetResult.timeout [] [] =
      ({ success := false, target := "new_system",
         error := some "未設定 NEW_SYSTEM_WEBHOOK_URL" }, none)) := by
  have h := unconfigured_url_immediate_failure {} NetResult.timeout [] [] false
  exact ⟨h.1 rfl, h.2 rfl⟩

/-- C10: `forward_to_old_system` never reads its `include_reply_token`
parameter — both flag values produce the identical outcome and the identical
outbound request, so the token-inclusion distinctions the delegation modes
make have no effect on what reaches the old backend. -/
theorem include_reply_token_never_read (cfg : Settings) (net : NetResult)
    (body : List Nat) (headers : List (String × String)) :
    forward_to_old_system cfg net body headers true =
      forward_to_old_system cfg net body headers false := rfl

end LineGateway
